import Mathlib

/-!
Shallow embedding of the order-lifecycle subsystem of the HOE-BE backend:
the Razorpay webhook route and its three payment-event handlers, the
shipment-creation step, the order routes (cancel, pay, admin status, admin
ship, payment confirm, cancel shipment) and the two order-creation routes,
together with the conditional inventory decrement on Product.

Numbers are modelled as `Int` (JS numbers used as integers here), times as
`Nat` ticks passed in explicitly (each handler receives the current time),
and the document store as a single order plus an association list of
products keyed by product id.  External effects (HMAC computation, the
shipment provider call) are passed in as explicit arguments.
-/

namespace HOE

/-- Order lifecycle status enum, from the Order schema. -/
inductive OrderStatus
  | pending
  | confirmed
  | paid
  | processing
  | shipped
  | in_transit
  | delivered
  | cancelled
deriving DecidableEq, Repr

/-- Payment status enum of the embedded Razorpay sub-record. -/
inductive PaymentStatus
  | pending
  | authorized
  | captured
  | failed
deriving DecidableEq, Repr

/-- Shipment status enum of the embedded shipment sub-record. -/
inductive ShipmentStatus
  | pending
  | processing
  | shipped
  | in_transit
  | out_for_delivery
  | delivered
  | failed
  | cancelled
deriving DecidableEq, Repr

/-- Wire string of an order status. -/
def OrderStatus.code : OrderStatus → String
  | .pending => "pending"
  | .confirmed => "confirmed"
  | .paid => "paid"
  | .processing => "processing"
  | .shipped => "shipped"
  | .in_transit => "in_transit"
  | .delivered => "delivered"
  | .cancelled => "cancelled"

/-- One statusHistory entry: the schema stores an arbitrary status string
(the code also pushes strings such as "payment_authorized" and
"shipment_failed" that are not order statuses), a timestamp, the actor and
a free-text note. -/
structure HistoryEntry where
  status : String
  timestamp : Nat
  updatedBy : String
  notes : String
deriving DecidableEq, Repr

/-- One order line item (snapshot taken at creation). -/
structure OrderItem where
  product : Nat
  title : String
  price : Int
  quantity : Nat
  gstRate : Int
deriving DecidableEq, Repr

/-- Embedded Razorpay payment sub-record. -/
structure RazorpayDetails where
  razorpayOrderId : Option String := none
  razorpayPaymentId : Option String := none
  razorpaySignature : Option String := none
  paymentMethod : Option String := none
  paymentStatus : PaymentStatus := .pending
deriving DecidableEq, Repr

/-- Embedded shipment sub-record (the fields the lifecycle code touches). -/
structure ShipmentDetails where
  shipyaariOrderId : Option String := none
  awbNumber : Option String := none
  courierPartner : Option String := none
  trackingUrl : Option String := none
  shipmentStatus : ShipmentStatus := .pending
  estimatedDeliveryDate : Option Nat := none
  shipmentError : Option String := none
  cancellationIsCancelled : Bool := false
  cancellationAt : Option Nat := none
  cancellationReason : Option String := none
deriving DecidableEq, Repr

/-- The order document (the fields the lifecycle code reads or writes). -/
structure Order where
  status : OrderStatus := .pending
  items : List OrderItem
  itemsPrice : Int
  shippingPrice : Int
  taxPrice : Int
  totalPrice : Int
  paidAt : Option Nat := none
  shippedAt : Option Nat := none
  deliveredAt : Option Nat := none
  cancelledAt : Option Nat := none
  cancellationReason : Option String := none
  razorpayDetails : RazorpayDetails := {}
  shipmentDetails : ShipmentDetails := {}
  statusHistory : List HistoryEntry := []
deriving DecidableEq, Repr

/-- The product document (the inventory aspect). -/
structure Product where
  stock : Int
  totalSales : Int := 0
  status : String := "active"
  lastStockUpdate : Option Nat := none
deriving DecidableEq, Repr

/-- Look a product up by id in the store. -/
def lookupProd (ps : List (Nat × Product)) (id : Nat) : Option Product :=
  (ps.find? (fun kv => kv.1 = id)).map (fun kv => kv.2)

/-- Replace the product stored under `id` (first occurrence). -/
def setProd : List (Nat × Product) → Nat → Product → List (Nat × Product)
  | [], _, _ => []
  | (k, v) :: rest, id, p =>
      if k = id then (k, p) :: rest else (k, v) :: setProd rest id p

/-- The conditional decrement of `handlePaymentSuccess`:
`Product.findOneAndUpdate({_id, stock: {$gte: qty}}, {$inc: {stock: -qty,
totalSales: qty}, $set: {lastStockUpdate: now}})`.  Returns `none` when the
predicate does not match (insufficient stock). -/
def tryDecrement (now : Nat) (p : Product) (qty : Nat) : Option Product :=
  if (qty : Int) ≤ p.stock then
    some { p with stock := p.stock - qty, totalSales := p.totalSales + qty,
                  lastStockUpdate := some now }
  else
    none

/-- The follow-up update: when the decremented stock is exactly 0 and the
product is not already marked, flip its status to "out_of_stock". -/
def flipOutOfStock (now : Nat) (p : Product) : Product :=
  if p.stock = 0 ∧ p.status ≠ "out_of_stock" then
    { p with status := "out_of_stock", lastStockUpdate := some now }
  else
    p

/-- One iteration of the stock-deduction loop for one item: conditional
decrement, then the out-of-stock flip; a failed conditional update is
logged and skipped (store unchanged). -/
def stockUpdateStep (now : Nat) (ps : List (Nat × Product)) (id : Nat)
    (qty : Nat) : List (Nat × Product) :=
  match lookupProd ps id with
  | none => ps
  | some p =>
      match tryDecrement now p qty with
      | none => ps
      | some p1 => setProd ps id (flipOutOfStock now p1)

/-- The stock-deduction loop over the order's items. -/
def deductStock (now : Nat) (items : List OrderItem)
    (ps : List (Nat × Product)) : List (Nat × Product) :=
  items.foldl (fun acc it => stockUpdateStep now acc it.product it.quantity) ps

/-- Run a sequence of decrement attempts against one product, counting the
attempts that succeed (the Inventory Ledger contract, iterated). -/
def runDecrements (now : Nat) (p : Product) (qs : List Nat) : Product × Nat :=
  qs.foldl
    (fun acc q =>
      match tryDecrement now acc.1 q with
      | none => acc
      | some p1 => (flipOutOfStock now p1, acc.2 + 1))
    (p, 0)

/-- The `payload.payment.entity` object of a Razorpay payment event. -/
structure PaymentData where
  id : String
  order_id : String
  amount : Int
  method : String
  error_description : Option String := none
deriving DecidableEq, Repr

/-- Result object returned by a successful shipment-provider call. -/
structure ShipmentResult where
  shipyaariOrderId : String
  awbNumber : String
  courierPartner : String
  trackingUrl : String
  estimatedDeliveryDate : Nat
deriving DecidableEq, Repr

/-- Document-store state the webhook handlers act on: the order located by
the event's gateway order id, plus the product store. -/
structure DbState where
  order : Order
  products : List (Nat × Product)
deriving DecidableEq, Repr

/-- The shipment-creation step `processShipment(order)`: first set the
order's status to `processing` and push a "processing" history entry; then
call the provider.  On success, populate the shipment sub-record, set
status `shipped` with `shippedAt` and push a "shipped" entry; on error,
set `shipmentStatus = failed` and `shipmentError`, push a
"shipment_failed" entry, and leave the status untouched (it stays
`processing`).  The catch swallows the error, so the function is total. -/
def processShipment (now : Nat) (ship : Except String ShipmentResult)
    (st : DbState) : DbState :=
  let o1 : Order :=
    { st.order with
        status := .processing,
        statusHistory := st.order.statusHistory ++
          [{ status := "processing", timestamp := now, updatedBy := "system",
             notes := "Order processing for shipment creation" }] }
  match ship with
  | .ok r =>
      { st with order :=
        { o1 with
            shipmentDetails :=
              { o1.shipmentDetails with
                  shipmentStatus := .processing,
                  shipyaariOrderId := some r.shipyaariOrderId,
                  awbNumber := some r.awbNumber,
                  courierPartner := some r.courierPartner,
                  trackingUrl := some r.trackingUrl,
                  estimatedDeliveryDate := some r.estimatedDeliveryDate },
            status := .shipped,
            shippedAt := some now,
            statusHistory := o1.statusHistory ++
              [{ status := "shipped", timestamp := now,
                 updatedBy := "shipyaari_integration",
                 notes := "Shipment created - AWB: " ++ r.awbNumber ++
                   ", Courier: " ++ r.courierPartner }] } }
  | .error msg =>
      { st with order :=
        { o1 with
            shipmentDetails :=
              { o1.shipmentDetails with
                  shipmentStatus := .failed,
                  shipmentError := some msg },
            statusHistory := o1.statusHistory ++
              [{ status := "shipment_failed", timestamp := now,
                 updatedBy := "system",
                 notes := "Shipment creation failed: " ++ msg }] } }

/-- The capture update applied to the matched order: record the payment,
set status `paid` with `paidAt`, and push one "paid" history entry. -/
def capturedOrder (now : Nat) (pd : PaymentData) (o : Order) : Order :=
  { o with
      razorpayDetails :=
        { o.razorpayDetails with
            razorpayPaymentId := some pd.id,
            paymentStatus := .captured,
            paymentMethod := some pd.method },
      status := .paid,
      paidAt := some now,
      statusHistory := o.statusHistory ++
        [{ status := "paid", timestamp := now,
           updatedBy := "razorpay_webhook",
           notes := "Payment captured: ₹" ++ toString (pd.amount / 100) ++
             " via " ++ pd.method }] }

/-- The `payment.captured` handler `handlePaymentSuccess`.  A missing
entity object (`pd = none`) throws on the first property access and is
swallowed by the handler's own catch: no change.  When the order's stored
gateway order id does not match, the handler throws "Order not found",
also swallowed: no change.  Otherwise — with no check of the current order
status — it applies `capturedOrder`, runs the per-item conditional stock
decrement over the updated order's items, and then calls
`processShipment`. -/
def handlePaymentSuccess (now : Nat) (ship : Except String ShipmentResult)
    (pd : Option PaymentData) (st : DbState) : DbState :=
  match pd with
  | none => st
  | some pd =>
      if st.order.razorpayDetails.razorpayOrderId = some pd.order_id then
        processShipment now ship
          { order := capturedOrder now pd st.order,
            products := deductStock now (capturedOrder now pd st.order).items
              st.products }
      else
        st

/-- The `payment.failed` handler `handlePaymentFailure`: when the order is
found, unconditionally set payment status `failed`, order status
`cancelled` with `cancelledAt` and reason "Payment failed", and push a
"cancelled" history entry; no guard on the current status. -/
def handlePaymentFailure (now : Nat) (pd : Option PaymentData)
    (st : DbState) : DbState :=
  match pd with
  | none => st
  | some pd =>
      if st.order.razorpayDetails.razorpayOrderId = some pd.order_id then
        { st with order :=
          { st.order with
              razorpayDetails :=
                { st.order.razorpayDetails with paymentStatus := .failed },
              status := .cancelled,
              cancelledAt := some now,
              cancellationReason := some "Payment failed",
              statusHistory := st.order.statusHistory ++
                [{ status := "cancelled", timestamp := now,
                   updatedBy := "razorpay_webhook",
                   notes := "Payment failed: " ++
                     pd.error_description.getD "Payment processing failed" }] } }
      else
        st

/-- The `payment.authorized` handler `handlePaymentAuthorized`: when the
order is found, record the authorization in the payment sub-record and
push a "payment_authorized" history entry; the order status itself is not
changed. -/
def handlePaymentAuthorized (now : Nat) (pd : Option PaymentData)
    (st : DbState) : DbState :=
  match pd with
  | none => st
  | some pd =>
      if st.order.razorpayDetails.razorpayOrderId = some pd.order_id then
        { st with order :=
          { st.order with
              razorpayDetails :=
                { st.order.razorpayDetails with
                    razorpayPaymentId := some pd.id,
                    paymentStatus := .authorized,
                    paymentMethod := some pd.method },
              statusHistory := st.order.statusHistory ++
                [{ status := "payment_authorized", timestamp := now,
                   updatedBy := "razorpay_webhook",
                   notes := "Payment authorized: ₹" ++
                     toString (pd.amount / 100) ++ " - Awaiting capture" }] } }
      else
        st

/-- The `payload.payment` wrapper of a webhook body (its `entity` may be
absent). -/
structure PaymentWrap where
  entity : Option PaymentData
deriving DecidableEq, Repr

/-- The `payload` object of a webhook body (its `payment` field may be
absent). -/
structure WebhookPayload where
  payment : Option PaymentWrap
deriving DecidableEq, Repr

/-- An inbound webhook request: the signature header (absent or present),
the raw body the HMAC is computed over, and the parsed `{event, payload}`
fields. -/
structure WebhookReq where
  signature : Option String
  body : String
  event : String
  payload : Option WebhookPayload
deriving DecidableEq, Repr

/-- The `POST /razorpay` webhook route.  `hmac secret body` stands for
`crypto.createHmac('sha256', secret).update(body).digest('hex')`.  A
missing or mismatched signature is rejected with 400 before anything else
runs.  After the signature check the route logs
`payload.payment?.entity?.id`, which throws when `payload` itself is
absent, and the three payment events dereference `payload.payment.entity`,
which throws when `payment` is absent; either TypeError reaches the outer
catch and yields 500 with no state change.  Otherwise the matching handler
runs (each swallows its own errors) and the route answers 200. -/
def razorpayWebhook (hmac : String → String → String) (secret : String)
    (now : Nat) (ship : Except String ShipmentResult) (req : WebhookReq)
    (st : DbState) : Nat × DbState :=
  match req.signature with
  | none => (400, st)
  | some sig =>
      if sig = hmac secret req.body then
        match req.payload with
        | none => (500, st)
        | some pl =>
            if req.event = "payment.captured" then
              match pl.payment with
              | none => (500, st)
              | some w => (200, handlePaymentSuccess now ship w.entity st)
            else if req.event = "payment.failed" then
              match pl.payment with
              | none => (500, st)
              | some w => (200, handlePaymentFailure now w.entity st)
            else if req.event = "payment.authorized" then
              match pl.payment with
              | none => (500, st)
              | some w => (200, handlePaymentAuthorized now w.entity st)
            else
              (200, st)
      else
        (400, st)

/-- The `POST /:id/cancel` route (owner or admin, after auth): reject with
400 and no change when the current status is one of `processing`,
`shipped`, `in_transit`, `delivered`, `cancelled`; otherwise set status
`cancelled`, set `cancelledAt`, and record the reason when one was sent.
No history entry is appended. -/
def cancelOrderRoute (now : Nat) (reason : Option String) (o : Order) :
    Nat × Order :=
  if o.status ∈ ([.processing, .shipped, .in_transit, .delivered, .cancelled] :
      List OrderStatus) then
    (400, o)
  else
    (200,
      { o with
          status := .cancelled,
          cancelledAt := some now,
          cancellationReason :=
            match reason with
            | some r => some r
            | none => o.cancellationReason })

/-- The `PATCH /:id/pay` route: save the supplied Razorpay details
(payment status defaulting to `captured`, method to "online"), set status
`paid` and `paidAt`, and save.  No history entry is appended. -/
def payOrderRoute (now : Nat) (rzpOrderId rzpPaymentId rzpSignature : String)
    (method : Option String) (pStatus : Option PaymentStatus) (o : Order) :
    Order :=
  { o with
      razorpayDetails :=
        { razorpayOrderId := some rzpOrderId,
          razorpayPaymentId := some rzpPaymentId,
          razorpaySignature := some rzpSignature,
          paymentMethod := some (method.getD "online"),
          paymentStatus := pStatus.getD .captured },
      status := .paid,
      paidAt := some now }

/-- The admin `PATCH /:id/status` route: set the requested status
unconditionally, stamping `shippedAt` / `deliveredAt` when entering those
statuses.  No history entry is appended. -/
def adminUpdateStatus (now : Nat) (s : OrderStatus) (o : Order) : Order :=
  { o with
      status := s,
      shippedAt := if s = .shipped then some now else o.shippedAt,
      deliveredAt := if s = .delivered then some now else o.deliveredAt }

/-- Request body of the admin `POST /:id/ship` route. -/
structure ShipBody where
  shipyaariOrderId : Option String := none
  awbNumber : Option String := none
  courierPartner : Option String := none
  trackingUrl : Option String := none
  shipmentStatus : Option ShipmentStatus := none
  estimatedDeliveryDate : Option Nat := none
  shipmentError : Option String := none
deriving DecidableEq, Repr

/-- The admin `POST /:id/ship` route: replace the shipment sub-record
(status defaulting to `processing`) and stamp `shippedAt` when the new
shipment status is `shipped` or `in_transit` and none was recorded yet. -/
def adminShipRoute (now : Nat) (b : ShipBody) (o : Order) : Order :=
  let sd : ShipmentDetails :=
    { shipyaariOrderId := b.shipyaariOrderId,
      awbNumber := b.awbNumber,
      courierPartner := b.courierPartner,
      trackingUrl := b.trackingUrl,
      shipmentStatus := b.shipmentStatus.getD .processing,
      estimatedDeliveryDate := b.estimatedDeliveryDate,
      shipmentError := b.shipmentError }
  { o with
      shipmentDetails := sd,
      shippedAt :=
        if (sd.shipmentStatus = .shipped ∨ sd.shipmentStatus = .in_transit) ∧
            o.shippedAt = none then
          some now
        else
          o.shippedAt }

/-- The `POST /payment/confirm` route, after its signature check passed:
locate the order by the gateway order id and set the payment details,
status `paid` and `paidAt`; an unmatched id is a 404 with no change. -/
def confirmPaymentRoute (now : Nat) (rzpOrderId rzpPaymentId rzpSignature :
    String) (o : Order) : Order :=
  if o.razorpayDetails.razorpayOrderId = some rzpOrderId then
    { o with
        razorpayDetails :=
          { o.razorpayDetails with
              razorpayPaymentId := some rzpPaymentId,
              razorpaySignature := some rzpSignature,
              paymentStatus := .captured },
        status := .paid,
        paidAt := some now }
  else
    o

/-- The `POST /:id/cancel-shipment` route: with no AWB number it is a 400
with no change; otherwise record the shipment-level cancellation, set the
shipment status and the order status to `cancelled`. -/
def cancelShipmentRoute (now : Nat) (reason : Option String)
    (providerCancelled : Bool) (o : Order) : Order :=
  match o.shipmentDetails.awbNumber with
  | none => o
  | some _ =>
      { o with
          shipmentDetails :=
            { o.shipmentDetails with
                cancellationIsCancelled := providerCancelled,
                cancellationAt := some now,
                cancellationReason :=
                  some (reason.getD "Cancelled by customer"),
                shipmentStatus := .cancelled },
          status := .cancelled }

/-- Sum of `price * quantity` over the line items
(`items.reduce((sum, it) => sum + it.price * it.quantity, 0)`). -/
def computeItemsPrice (items : List OrderItem) : Int :=
  items.foldl (fun s it => s + it.price * it.quantity) 0

/-- JS `Math.round(n / 100)` for a non-negative integer numerator. -/
def roundDiv100 (n : Int) : Int :=
  (n + 50) / 100

/-- The GST accumulation loop: per item, `Math.round(price * quantity *
gstRate / 100)` added when the product carries a (truthy) GST rate. -/
def computeGst (items : List OrderItem) : Int :=
  items.foldl
    (fun s it =>
      if it.gstRate ≠ 0 then s + roundDiv100 (it.price * it.quantity * it.gstRate)
      else s)
    0

/-- The `POST /` order-creation route, after validation: compute
`itemsPrice` from the normalized items, take the client's shipping price,
use the client's tax price unless it is 0 (then compute GST), and store
`totalPrice = itemsPrice + shippingPrice + taxPrice`.  A fresh order
starts `pending` with an empty status history. -/
def createOrderRoute (items : List OrderItem) (shippingPriceIn taxPriceIn :
    Int) : Order :=
  let itemsPrice := computeItemsPrice items
  let calculatedTaxPrice :=
    if taxPriceIn = 0 then computeGst items else taxPriceIn
  { status := .pending,
    items := items,
    itemsPrice := itemsPrice,
    shippingPrice := shippingPriceIn,
    taxPrice := calculatedTaxPrice,
    totalPrice := itemsPrice + shippingPriceIn + calculatedTaxPrice }

/-- The `POST /payment/initiate` route, after validation: shipping is
always 0, tax is always the computed GST, and
`totalPrice = itemsPrice + shippingPrice + taxPrice`; the created order is
`pending` and then receives the gateway order id. -/
def paymentInitiateRoute (items : List OrderItem) (rzpOrderId : String) :
    Order :=
  let itemsPrice := computeItemsPrice items
  let shippingPrice : Int := 0
  let taxPrice := computeGst items
  { status := .pending,
    items := items,
    itemsPrice := itemsPrice,
    shippingPrice := shippingPrice,
    taxPrice := taxPrice,
    totalPrice := itemsPrice + shippingPrice + taxPrice,
    razorpayDetails := { razorpayOrderId := some rzpOrderId,
                         paymentStatus := .pending } }

/-- Count of "paid" entries in a status history. -/
def countPaid (h : List HistoryEntry) : Nat :=
  (h.filter (fun e => e.status = "paid")).length

/-- Timestamps of a status history are non-decreasing. -/
def timesMono : List HistoryEntry → Bool
  | [] => true
  | [_] => true
  | a :: b :: rest => decide (a.timestamp ≤ b.timestamp) && timesMono (b :: rest)

/-- Every timestamp in the history is at most `t`. -/
def allTimesLE (h : List HistoryEntry) (t : Nat) : Bool :=
  h.all (fun e => e.timestamp ≤ t)

/-- The last history entry's status string equals the order's current
status (vacuously true for an empty history). -/
def lastMatchesStatus (o : Order) : Bool :=
  match o.statusHistory.getLast? with
  | none => true
  | some e => e.status = o.status.code

/-- The price snapshot of an order is unchanged: same items and same four
price fields. -/
def pricesFrozen (o o' : Order) : Prop :=
  o'.items = o.items ∧ o'.itemsPrice = o.itemsPrice ∧
  o'.shippingPrice = o.shippingPrice ∧ o'.taxPrice = o.taxPrice ∧
  o'.totalPrice = o.totalPrice

/-- A one-unit line item over product 1, used in concrete runs. -/
def itemEx : OrderItem :=
  { product := 1, title := "tee", price := 500, quantity := 1, gstRate := 12 }

/-- A freshly created pending order holding `itemEx`, already linked to
gateway order id "rz". -/
def orderEx : Order :=
  { status := .pending, items := [itemEx], itemsPrice := 500,
    shippingPrice := 0, taxPrice := 60, totalPrice := 560,
    razorpayDetails := { razorpayOrderId := some "rz",
                         paymentStatus := .pending } }

/-- A store holding `orderEx` and product 1 with stock 2. -/
def stEx : DbState := { order := orderEx, products := [(1, { stock := 2 })] }

/-- A captured-payment entity for gateway order "rz". -/
def pdEx : PaymentData :=
  { id := "pay_1", order_id := "rz", amount := 56000, method := "upi" }

/-- A successful shipment-provider result. -/
def shipOkEx : Except String ShipmentResult :=
  .ok { shipyaariOrderId := "sy_1", awbNumber := "AWB1",
        courierPartner := "BlueDart", trackingUrl := "http://track",
        estimatedDeliveryDate := 9 }

/-- A concrete stand-in for the HMAC primitive, used to instantiate
theorems that quantify over it. -/
def hmacEx : String → String → String := fun secret body => secret ++ "|" ++ body

/-!  Helper lemmas about the inventory operations. -/

/-- A successful conditional decrement never leaves negative stock: the
predicate `stock ≥ qty` is checked in the same update. -/
theorem tryDecrement_stock_nonneg (now : Nat) (p : Product) (q : Nat)
    (p' : Product) (h : tryDecrement now p q = some p') : 0 ≤ p'.stock := by
  unfold tryDecrement at h
  split at h
  · cases h
    simpa using ‹(q : Int) ≤ p.stock›
  · cases h

/-- The out-of-stock flip does not change the stock count. -/
theorem flipOutOfStock_stock (now : Nat) (p : Product) :
    (flipOutOfStock now p).stock = p.stock := by
  unfold flipOutOfStock
  split <;> rfl

/-- Folding decrement attempts keeps the stock non-negative. -/
theorem foldDecrements_nonneg (now : Nat) :
    ∀ (qs : List Nat) (acc : Product × Nat), 0 ≤ acc.1.stock →
      0 ≤ (qs.foldl
        (fun acc q =>
          match tryDecrement now acc.1 q with
          | none => acc
          | some p1 => (flipOutOfStock now p1, acc.2 + 1)) acc).1.stock := by
  intro qs
  induction qs with
  | nil => intro acc h; simpa using h
  | cons q qs ih =>
      intro acc h
      rw [List.foldl_cons]
      apply ih
      cases hd : tryDecrement now acc.1 q with
      | none => simpa [hd] using h
      | some p1 =>
          simp only [hd, flipOutOfStock_stock]
          exact tryDecrement_stock_nonneg now acc.1 q p1 hd

/-- C2: the inventory decrement is a single conditional update — it
succeeds exactly when the current stock is at least the requested
quantity, any run of attempts starting from non-negative stock ends with
non-negative stock, and with stock 1 and two quantity-1 attempts exactly
one attempt succeeds and the final stock is 0. -/
theorem inventory_conditional_decrement :
    (∀ (now : Nat) (p : Product) (q : Nat),
      (tryDecrement now p q).isSome = true ↔ (q : Int) ≤ p.stock) ∧
    (∀ (now : Nat) (p : Product) (qs : List Nat), 0 ≤ p.stock →
      0 ≤ (runDecrements now p qs).1.stock) ∧
    ((runDecrements 0 { stock := 1 } [1, 1]).1.stock = 0 ∧
      (runDecrements 0 { stock := 1 } [1, 1]).2 = 1) := by
  refine ⟨?_, ?_, by decide⟩
  · intro now p q
    unfold tryDecrement
    split
    · simpa using ‹(q : Int) ≤ p.stock›
    · simpa using ‹¬ (q : Int) ≤ p.stock›
  · intro now p qs h
    unfold runDecrements
    exact foldDecrements_nonneg now qs (p, 0) h

/-- Witness for C2: running attempts of quantity 2 then 3 against stock 4
leaves non-negative stock. -/
theorem inventory_conditional_decrement_witness :
    0 ≤ (runDecrements 0 { stock := 4 } [2, 3]).1.stock :=
  inventory_conditional_decrement.2.1 0 { stock := 4 } [2, 3] (by decide)

/-- C5: a webhook delivery whose signature header is missing, or whose
signature differs from the HMAC of the raw body under the shared secret,
is answered 400 and the store is left exactly as it was — no order field
changes and no status-history append, for every payload. -/
theorem signature_gate (hmac : String → String → String) (secret : String)
    (now : Nat) (ship : Except String ShipmentResult) (body event : String)
    (payload : Option WebhookPayload) (st : DbState) :
    razorpayWebhook hmac secret now ship
      { signature := none, body := body, event := event, payload := payload }
      st = (400, st) ∧
    (∀ s : String, s ≠ hmac secret body →
      razorpayWebhook hmac secret now ship
        { signature := some s, body := body, event := event,
          payload := payload } st = (400, st)) := by
  constructor
  · rfl
  · intro s hs
    simp [razorpayWebhook, hs]

/-- Witness for C5: a concrete mismatched signature is answered 400 with
the store untouched. -/
theorem signature_gate_witness :
    razorpayWebhook hmacEx "k" 0 shipOkEx
      { signature := some "bad", body := "b", event := "payment.captured",
        payload := none } stEx = (400, stEx) :=
  (signature_gate hmacEx "k" 0 shipOkEx "b" "payment.captured" none stEx).2
    "bad" (by decide)

/-- C6: when the shipment-provider call errors after a capture, the order
stays in `processing` (the paid/processing transition is not reverted),
the shipment sub-record gets `shipmentStatus = failed` and the error
message, and the webhook route still answers 200 — no exception escapes
to the webhook response. -/
theorem shipment_failure_semantics (now : Nat) (msg : String) (st : DbState)
    (hmac : String → String → String) (secret body : String)
    (pd : PaymentData) :
    (processShipment now (.error msg) st).order.status = .processing ∧
    (processShipment now (.error msg) st).order.shipmentDetails.shipmentStatus
      = .failed ∧
    (processShipment now (.error msg) st).order.shipmentDetails.shipmentError
      = some msg ∧
    (razorpayWebhook hmac secret now (.error msg)
      { signature := some (hmac secret body), body := body,
        event := "payment.captured",
        payload := some { payment := some { entity := some pd } } } st).1
      = 200 := by
  refine ⟨rfl, rfl, rfl, ?_⟩
  simp [razorpayWebhook]

/-- C10: a payment-failed event for a matched order cancels it with no
guard on the current status: status becomes `cancelled`, `cancelledAt` is
set, the reason is "Payment failed", the payment status becomes `failed`,
and exactly one "cancelled" history entry is appended — whatever the
previous status was. -/
theorem payment_failure_unconditional (now : Nat) (pd : PaymentData)
    (st : DbState)
    (hm : st.order.razorpayDetails.razorpayOrderId = some pd.order_id) :
    (handlePaymentFailure now (some pd) st).order.status = .cancelled ∧
    (handlePaymentFailure now (some pd) st).order.cancelledAt = some now ∧
    (handlePaymentFailure now (some pd) st).order.cancellationReason
      = some "Payment failed" ∧
    (handlePaymentFailure now (some pd) st).order.razorpayDetails.paymentStatus
      = .failed ∧
    (handlePaymentFailure now (some pd) st).order.statusHistory
      = st.order.statusHistory ++
        [{ status := "cancelled", timestamp := now,
           updatedBy := "razorpay_webhook",
           notes := "Payment failed: " ++
             pd.error_description.getD "Payment processing failed" }] := by
  simp [handlePaymentFailure, hm]

/-- Witness for C10: even an already delivered order is cancelled by a
payment-failed event. -/
theorem payment_failure_unconditional_witness :
    ({ stEx with order := { orderEx with status := .delivered } } :
        DbState).order.razorpayDetails.razorpayOrderId = some pdEx.order_id ∧
    (handlePaymentFailure 3 (some pdEx)
      { stEx with order := { orderEx with status := .delivered } }).order.status
      = .cancelled :=
  ⟨by decide,
    (payment_failure_unconditional 3 pdEx
      { stEx with order := { orderEx with status := .delivered } }
      (by decide)).1⟩

/-- C3 counterexample: an order in status `processing` is rejected by the
cancel route with 400 and no state change, although the claim lists
`processing` among the cancellable statuses. -/
theorem cancel_processing_counterexample :
    cancelOrderRoute 7 none { orderEx with status := .processing }
      = (400, { orderEx with status := .processing }) ∧
    ¬ ((cancelOrderRoute 7 none { orderEx with status := .processing }).1 = 200
        ∧ (cancelOrderRoute 7 none
            { orderEx with status := .processing }).2.status = .cancelled) := by
  decide

/-- C3 amended: a cancel request succeeds (200, status set to `cancelled`
with `cancelledAt`) exactly when the current status is `pending`,
`confirmed` or `paid`; it is rejected with 400 and no state change exactly
when the current status is `processing`, `shipped`, `in_transit`,
`delivered` or `cancelled`. -/
theorem cancel_route_amended (now : Nat) (reason : Option String) (o : Order) :
    ((cancelOrderRoute now reason o).1 = 200 ↔
      o.status ∈ ([.pending, .confirmed, .paid] : List OrderStatus)) ∧
    (o.status ∈ ([.pending, .confirmed, .paid] : List OrderStatus) →
      (cancelOrderRoute now reason o).2.status = .cancelled ∧
      (cancelOrderRoute now reason o).2.cancelledAt = some now) ∧
    (o.status ∈ ([.processing, .shipped, .in_transit, .delivered,
        .cancelled] : List OrderStatus) →
      cancelOrderRoute now reason o = (400, o)) := by
  cases h : o.status <;> simp [cancelOrderRoute, h]

/-- Witness for C3 amended: the concrete pending order is cancelled with
`cancelledAt` stamped. -/
theorem cancel_route_amended_witness :
    orderEx.status ∈ ([.pending, .confirmed, .paid] : List OrderStatus) ∧
    (cancelOrderRoute 7 none orderEx).2.status = .cancelled :=
  ⟨by decide, ((cancel_route_amended 7 none orderEx).2.1 (by decide)).1⟩

/-!  Helper lemmas about `countPaid` and the capture handler. -/

/-- Count of "paid" entries distributes over append. -/
theorem countPaid_append (h l : List HistoryEntry) :
    countPaid (h ++ l) = countPaid h + countPaid l := by
  simp [countPaid, List.filter_append]

/-- Count of "paid" entries on a cons. -/
theorem countPaid_cons (e : HistoryEntry) (l : List HistoryEntry) :
    countPaid (e :: l) =
      (if e.status = "paid" then 1 else 0) + countPaid l := by
  by_cases h : e.status = "paid" <;> simp [countPaid, h, Nat.add_comm]

/-- The shipment step never touches the Razorpay sub-record. -/
theorem processShipment_razorpay (now : Nat)
    (ship : Except String ShipmentResult) (st : DbState) :
    (processShipment now ship st).order.razorpayDetails
      = st.order.razorpayDetails := by
  unfold processShipment
  cases ship <;> rfl

/-- The shipment step appends only "processing" and "shipped" /
"shipment_failed" entries, so the count of "paid" entries is unchanged. -/
theorem processShipment_countPaid (now : Nat)
    (ship : Except String ShipmentResult) (st : DbState) :
    countPaid (processShipment now ship st).order.statusHistory
      = countPaid st.order.statusHistory := by
  unfold processShipment
  cases ship <;>
    simp [countPaid_append, countPaid_cons, countPaid]

/-- The capture handler on a matched order is the capture update followed
by the stock deduction and the shipment step. -/
theorem handlePaymentSuccess_matched (now : Nat)
    (ship : Except String ShipmentResult) (pd : PaymentData) (st : DbState)
    (hm : st.order.razorpayDetails.razorpayOrderId = some pd.order_id) :
    handlePaymentSuccess now ship (some pd) st
      = processShipment now ship
          { order := capturedOrder now pd st.order,
            products := deductStock now (capturedOrder now pd st.order).items
              st.products } := by
  simp [handlePaymentSuccess, hm]

/-- One capture event against a matched order appends exactly one "paid"
history entry (whatever the shipment call then does). -/
theorem success_countPaid (now : Nat) (ship : Except String ShipmentResult)
    (pd : PaymentData) (st : DbState)
    (hm : st.order.razorpayDetails.razorpayOrderId = some pd.order_id) :
    countPaid (handlePaymentSuccess now ship (some pd) st).order.statusHistory
      = countPaid st.order.statusHistory + 1 := by
  rw [handlePaymentSuccess_matched now ship pd st hm, processShipment_countPaid]
  simp [capturedOrder, countPaid_append, countPaid_cons, countPaid]

/-- The capture handler keeps the stored gateway order id. -/
theorem success_razorpayOrderId (now : Nat)
    (ship : Except String ShipmentResult) (pd : PaymentData) (st : DbState)
    (hm : st.order.razorpayDetails.razorpayOrderId = some pd.order_id) :
    (handlePaymentSuccess now ship (some pd) st).order.razorpayDetails.razorpayOrderId
      = st.order.razorpayDetails.razorpayOrderId := by
  rw [handlePaymentSuccess_matched now ship pd st hm, processShipment_razorpay]
  simp [capturedOrder]

/-- C1 counterexample: delivering the same payment-captured event twice to
an order with a single quantity-1 item and product stock 2 leaves two
"paid" status-history entries and stock 0 — the stock is decremented on
both deliveries and a second "paid" entry is appended, so the second
delivery is not a no-op. -/
theorem capture_replay_counterexample :
    countPaid (handlePaymentSuccess 6 shipOkEx (some pdEx)
        (handlePaymentSuccess 5 shipOkEx (some pdEx) stEx)).order.statusHistory
      = 2 ∧
    (lookupProd (handlePaymentSuccess 6 shipOkEx (some pdEx)
        (handlePaymentSuccess 5 shipOkEx (some pdEx) stEx)).products 1).map
        Product.stock = some 0 ∧
    ¬ (countPaid (handlePaymentSuccess 6 shipOkEx (some pdEx)
          (handlePaymentSuccess 5 shipOkEx (some pdEx) stEx)).order.statusHistory
        = 1 ∧
       (lookupProd (handlePaymentSuccess 6 shipOkEx (some pdEx)
          (handlePaymentSuccess 5 shipOkEx (some pdEx) stEx)).products 1).map
          Product.stock = some 1) := by
  decide

/-- C1 amended: the capture handler performs no status check, so replaying
a payment-captured event for a matched order is not a no-op — every
delivery appends one more "paid" status-history entry (two deliveries
append two) and re-runs the per-item conditional stock decrement, which
decrements again whenever the remaining stock still covers the quantity;
only the `stock ≥ quantity` guard bounds the repetition. -/
theorem capture_replay_amended (now now' : Nat)
    (ship ship' : Except String ShipmentResult) (pd : PaymentData)
    (st : DbState)
    (hm : st.order.razorpayDetails.razorpayOrderId = some pd.order_id) :
    countPaid (handlePaymentSuccess now' ship' (some pd)
        (handlePaymentSuccess now ship (some pd) st)).order.statusHistory
      = countPaid st.order.statusHistory + 2 := by
  have h1 := success_countPaid now ship pd st hm
  have hid := success_razorpayOrderId now ship pd st hm
  have h2 := success_countPaid now' ship' pd
    (handlePaymentSuccess now ship (some pd) st) (by rw [hid]; exact hm)
  omega

/-- Witness for C1 amended: two concrete deliveries append two "paid"
entries to the initially empty history. -/
theorem capture_replay_amended_witness :
    stEx.order.razorpayDetails.razorpayOrderId = some pdEx.order_id ∧
    countPaid (handlePaymentSuccess 6 shipOkEx (some pdEx)
        (handlePaymentSuccess 5 shipOkEx (some pdEx) stEx)).order.statusHistory
      = countPaid stEx.order.statusHistory + 2 :=
  ⟨by decide, capture_replay_amended 5 6 shipOkEx shipOkEx pdEx stEx (by decide)⟩

/-- C8 counterexample: a delivery with a valid signature but no `payload`
object throws inside the route (at the `payload.payment` access) and is
answered 500, not 200 — the response is not always a success status once
the signature is valid. -/
theorem webhook_500_counterexample :
    razorpayWebhook hmacEx "k" 0 shipOkEx
      { signature := some (hmacEx "k" "b"), body := "b",
        event := "payment.captured", payload := none } stEx = (500, stEx) ∧
    (razorpayWebhook hmacEx "k" 0 shipOkEx
      { signature := some (hmacEx "k" "b"), body := "b",
        event := "payment.captured", payload := none } stEx).1 ≠ 200 := by
  decide

/-- C8 amended: once the signature is valid, the route answers 200
provided the payload object is present and, for the three handled payment
events, its `payment` field is present; handler-internal processing errors
are swallowed (a captured event with a missing entity object is answered
200 with no state change).  A validly-signed delivery whose payload lacks
these fields throws at dispatch and is answered 500. -/
theorem webhook_response_amended (hmac : String → String → String)
    (secret : String) (now : Nat) (ship : Except String ShipmentResult)
    (body event : String) (pl : WebhookPayload) (st : DbState)
    (hp : pl.payment.isSome = true ∨
      (event ≠ "payment.captured" ∧ event ≠ "payment.failed" ∧
        event ≠ "payment.authorized")) :
    (razorpayWebhook hmac secret now ship
      { signature := some (hmac secret body), body := body, event := event,
        payload := some pl } st).1 = 200 ∧
    razorpayWebhook hmac secret now ship
      { signature := some (hmac secret body), body := body,
        event := "payment.captured",
        payload := some { payment := some { entity := none } } } st
      = (200, st) := by
  constructor
  · rcases hp with hp | ⟨h1, h2, h3⟩
    · obtain ⟨w, hw⟩ := Option.isSome_iff_exists.mp hp
      by_cases e1 : event = "payment.captured"
      · simp [razorpayWebhook, e1, hw]
      · by_cases e2 : event = "payment.failed"
        · simp [razorpayWebhook, e1, e2, hw]
        · by_cases e3 : event = "payment.authorized"
          · simp [razorpayWebhook, e1, e2, e3, hw]
          · simp [razorpayWebhook, e1, e2, e3]
    · simp [razorpayWebhook, h1, h2, h3]
  · simp [razorpayWebhook, handlePaymentSuccess]

/-- Witness for C8 amended: a concrete validly-signed captured event with
its entity present is answered 200. -/
theorem webhook_response_amended_witness :
    (razorpayWebhook hmacEx "k" 0 shipOkEx
      { signature := some (hmacEx "k" "b"), body := "b",
        event := "payment.captured",
        payload := some { payment := some { entity := some pdEx } } }
      stEx).1 = 200 :=
  (webhook_response_amended hmacEx "k" 0 shipOkEx "b" "payment.captured"
    { payment := some { entity := some pdEx } } stEx (Or.inl (by decide))).1

/-!  Helper lemmas about history timestamps. -/

/-- The Boolean monotonicity check agrees with `List.Chain'`. -/
theorem timesMono_iff (h : List HistoryEntry) :
    timesMono h = true ↔
      List.Chain' (fun a b => a.timestamp ≤ b.timestamp) h := by
  induction h with
  | nil => simp [timesMono]
  | cons a tail ih =>
      cases tail with
      | nil => simp [timesMono]
      | cons b tl =>
          rw [show timesMono (a :: b :: tl)
              = (decide (a.timestamp ≤ b.timestamp) && timesMono (b :: tl))
              from rfl,
            Bool.and_eq_true, decide_eq_true_iff, List.chain'_cons, ih]

/-- Appending one entry stamped at `t` to a monotone history whose
timestamps are all at most `t` keeps the history monotone and keeps every
timestamp at most `t`. -/
theorem timesMono_snoc (t : Nat) (h : List HistoryEntry) (e : HistoryEntry)
    (he : e.timestamp = t) (hm : timesMono h = true)
    (hle : allTimesLE h t = true) :
    timesMono (h ++ [e]) = true ∧ allTimesLE (h ++ [e]) t = true := by
  constructor
  · rw [timesMono_iff, List.chain'_append]
    refine ⟨(timesMono_iff h).mp hm, by simp, ?_⟩
    intro x hx y hy
    have hxm : x ∈ h := List.mem_of_mem_getLast? hx
    have hxt : x.timestamp ≤ t := by
      simpa using List.all_eq_true.mp hle x hxm
    have hye : e = y := by simpa using hy
    subst hye
    omega
  · rw [allTimesLE, List.all_append, Bool.and_eq_true]
    exact ⟨hle, by simp [he]⟩

/-- C4 counterexample: handling a payment-authorized event does not change
the order's status (it stays `pending`) yet appends a
"payment_authorized" status-history entry, so after this operation the
last history entry's status differs from the order's current status. -/
theorem history_last_counterexample :
    (handlePaymentAuthorized 4 (some pdEx) stEx).order.status = .pending ∧
    (handlePaymentAuthorized 4 (some pdEx) stEx).order.statusHistory.length
      = stEx.order.statusHistory.length + 1 ∧
    lastMatchesStatus (handlePaymentAuthorized 4 (some pdEx) stEx).order
      = false := by
  decide

/-- C4 amended: for the webhook transitions that do change the status —
payment-failed, and payment-captured followed by a successful shipment —
each transition appends history entries whose last status string equals
the new current status, and timestamps stay non-decreasing whenever the
event's time is not earlier than every recorded timestamp (one entry for
the failure transition; three, "paid"/"processing"/"shipped", for the
capture chain).  However, handling a payment-authorized event appends a
"payment_authorized" entry while the status stays `pending`, and the
order routes that set the status (pay, cancel, admin status) append no
history entry at all, so "last entry equals current status" does not hold
after every operation. -/
theorem history_monotone_amended (now : Nat) (pd : PaymentData)
    (r : ShipmentResult) (st : DbState)
    (hm : st.order.razorpayDetails.razorpayOrderId = some pd.order_id)
    (hmono : timesMono st.order.statusHistory = true)
    (hle : allTimesLE st.order.statusHistory now = true) :
    (timesMono (handlePaymentFailure now (some pd) st).order.statusHistory
        = true ∧
      lastMatchesStatus (handlePaymentFailure now (some pd) st).order
        = true ∧
      (handlePaymentFailure now (some pd) st).order.statusHistory.length
        = st.order.statusHistory.length + 1) ∧
    (timesMono
        (handlePaymentSuccess now (.ok r) (some pd) st).order.statusHistory
        = true ∧
      lastMatchesStatus (handlePaymentSuccess now (.ok r) (some pd) st).order
        = true ∧
      (handlePaymentSuccess now (.ok r) (some pd) st).order.statusHistory.length
        = st.order.statusHistory.length + 3) := by
  constructor
  · have hred : (handlePaymentFailure now (some pd) st).order.statusHistory
        = st.order.statusHistory ++
          [{ status := "cancelled", timestamp := now,
             updatedBy := "razorpay_webhook",
             notes := "Payment failed: " ++
               pd.error_description.getD "Payment processing failed" }] := by
      simp [handlePaymentFailure, hm]
    have hs := timesMono_snoc now st.order.statusHistory
      { status := "cancelled", timestamp := now,
        updatedBy := "razorpay_webhook",
        notes := "Payment failed: " ++
          pd.error_description.getD "Payment processing failed" }
      rfl hmono hle
    refine ⟨by rw [hred]; exact hs.1, ?_, by rw [hred]; simp⟩
    have hstat : (handlePaymentFailure now (some pd) st).order.status
        = .cancelled := by
      simp [handlePaymentFailure, hm]
    rw [lastMatchesStatus, hred, hstat, List.getLast?_concat]
    simp [OrderStatus.code]
  · rw [handlePaymentSuccess_matched now (.ok r) pd st hm]
    have h1 := timesMono_snoc now st.order.statusHistory
      { status := "paid", timestamp := now, updatedBy := "razorpay_webhook",
        notes := "Payment captured: ₹" ++ toString (pd.amount / 100) ++
          " via " ++ pd.method } rfl hmono hle
    have h2 := timesMono_snoc now _
      { status := "processing", timestamp := now, updatedBy := "system",
        notes := "Order processing for shipment creation" } rfl h1.1 h1.2
    have h3 := timesMono_snoc now _
      { status := "shipped", timestamp := now,
        updatedBy := "shipyaari_integration",
        notes := "Shipment created - AWB: " ++ r.awbNumber ++
          ", Courier: " ++ r.courierPartner } rfl h2.1 h2.2
    refine ⟨?_, ?_, ?_⟩
    · show timesMono
        ((((st.order.statusHistory ++ _) ++ _) ++ _) : List HistoryEntry)
        = true
      exact h3.1
    · rw [lastMatchesStatus]
      show (match ((((st.order.statusHistory ++ _) ++ _) ++ [_]) :
          List HistoryEntry).getLast? with
        | none => true
        | some e => decide (e.status = OrderStatus.shipped.code)) = true
      rw [List.getLast?_concat]
      simp [OrderStatus.code]
    · show ((((st.order.statusHistory ++ _) ++ _) ++ _) :
          List HistoryEntry).length = st.order.statusHistory.length + 3
      simp

/-- Witness for C4 amended: the concrete failure and capture runs append
entries matching the final status with monotone timestamps. -/
theorem history_monotone_amended_witness :
    stEx.order.razorpayDetails.razorpayOrderId = some pdEx.order_id ∧
    timesMono stEx.order.statusHistory = true ∧
    allTimesLE stEx.order.statusHistory 5 = true ∧
    lastMatchesStatus (handlePaymentFailure 5 (some pdEx) stEx).order
      = true :=
  ⟨by decide, by decide, by decide,
    (history_monotone_amended 5 pdEx
      { shipyaariOrderId := "sy_1", awbNumber := "AWB1",
        courierPartner := "BlueDart", trackingUrl := "http://track",
        estimatedDeliveryDate := 9 } stEx (by decide) (by decide)
      (by decide)).1.2.1⟩

/-!  Helper lemmas for the price-freeze invariant. -/

/-- Price snapshots compose. -/
theorem pricesFrozen_trans {a b c : Order} (h1 : pricesFrozen a b)
    (h2 : pricesFrozen b c) : pricesFrozen a c := by
  obtain ⟨i1, p1, s1, t1, g1⟩ := h1
  obtain ⟨i2, p2, s2, t2, g2⟩ := h2
  exact ⟨i2.trans i1, p2.trans p1, s2.trans s1, t2.trans t1, g2.trans g1⟩

/-- The shipment step never touches items or price fields. -/
theorem pricesFrozen_processShipment (now : Nat)
    (ship : Except String ShipmentResult) (st : DbState) :
    pricesFrozen st.order (processShipment now ship st).order := by
  unfold processShipment pricesFrozen
  cases ship <;> simp

/-- The capture update never touches items or price fields. -/
theorem pricesFrozen_capturedOrder (now : Nat) (pd : PaymentData)
    (o : Order) : pricesFrozen o (capturedOrder now pd o) := by
  simp [capturedOrder, pricesFrozen]

/-- The capture handler never touches items or price fields. -/
theorem pricesFrozen_success (now : Nat) (ship : Except String ShipmentResult)
    (pd : Option PaymentData) (st : DbState) :
    pricesFrozen st.order (handlePaymentSuccess now ship pd st).order := by
  cases pd with
  | none => exact ⟨rfl, rfl, rfl, rfl, rfl⟩
  | some pd =>
      by_cases hm : st.order.razorpayDetails.razorpayOrderId = some pd.order_id
      · rw [handlePaymentSuccess_matched now ship pd st hm]
        exact pricesFrozen_trans (pricesFrozen_capturedOrder now pd st.order)
          (pricesFrozen_processShipment now ship
            { order := capturedOrder now pd st.order,
              products := deductStock now (capturedOrder now pd st.order).items
                st.products })
      · have hid : handlePaymentSuccess now ship (some pd) st = st := by
          simp [handlePaymentSuccess, hm]
        rw [hid]
        exact ⟨rfl, rfl, rfl, rfl, rfl⟩

/-- The failure handler never touches items or price fields. -/
theorem pricesFrozen_failure (now : Nat) (pd : Option PaymentData)
    (st : DbState) :
    pricesFrozen st.order (handlePaymentFailure now pd st).order := by
  cases pd with
  | none => exact ⟨rfl, rfl, rfl, rfl, rfl⟩
  | some pd =>
      by_cases hm : st.order.razorpayDetails.razorpayOrderId = some pd.order_id
        <;> simp [handlePaymentFailure, pricesFrozen, hm]

/-- The authorization handler never touches items or price fields. -/
theorem pricesFrozen_authorized (now : Nat) (pd : Option PaymentData)
    (st : DbState) :
    pricesFrozen st.order (handlePaymentAuthorized now pd st).order := by
  cases pd with
  | none => exact ⟨rfl, rfl, rfl, rfl, rfl⟩
  | some pd =>
      by_cases hm : st.order.razorpayDetails.razorpayOrderId = some pd.order_id
        <;> simp [handlePaymentAuthorized, pricesFrozen, hm]

/-- The webhook route never touches items or price fields. -/
theorem pricesFrozen_webhook (hmac : String → String → String)
    (secret : String) (now : Nat) (ship : Except String ShipmentResult)
    (req : WebhookReq) (st : DbState) :
    pricesFrozen st.order (razorpayWebhook hmac secret now ship req st).2.order := by
  unfold razorpayWebhook
  cases req.signature with
  | none => exact ⟨rfl, rfl, rfl, rfl, rfl⟩
  | some sig =>
      by_cases hsig : sig = hmac secret req.body
      · simp only [hsig, if_pos, if_true]
        cases req.payload with
        | none => exact ⟨rfl, rfl, rfl, rfl, rfl⟩
        | some pl =>
            by_cases e1 : req.event = "payment.captured"
            · simp only [e1, if_pos]
              cases pl.payment with
              | none => exact ⟨rfl, rfl, rfl, rfl, rfl⟩
              | some w => exact pricesFrozen_success now ship w.entity st
            · by_cases e2 : req.event = "payment.failed"
              · simp only [e1, e2, if_neg, if_pos, if_false, if_true]
                cases pl.payment with
                | none => exact ⟨rfl, rfl, rfl, rfl, rfl⟩
                | some w => exact pricesFrozen_failure now w.entity st
              · by_cases e3 : req.event = "payment.authorized"
                · simp only [e1, e2, e3, if_neg, if_pos, if_false, if_true]
                  cases pl.payment with
                  | none => exact ⟨rfl, rfl, rfl, rfl, rfl⟩
                  | some w => exact pricesFrozen_authorized now w.entity st
                · simp only [e1, e2, e3, if_neg, if_false]
                  exact ⟨rfl, rfl, rfl, rfl, rfl⟩
      · simp only [hsig, if_neg, if_false]
        exact ⟨rfl, rfl, rfl, rfl, rfl⟩

/-- C9: at creation, both order-creation routes store
`totalPrice = itemsPrice + shippingPrice + taxPrice` with
`itemsPrice = sum of price * quantity` over the stored items, and no later
lifecycle operation (payment handlers, shipment step, webhook route,
cancel, pay, admin status, admin ship, payment confirm, cancel shipment)
changes the stored items or any of the four price fields. -/
theorem price_invariant :
    (∀ (items : List OrderItem) (sp tp : Int),
      (createOrderRoute items sp tp).totalPrice
        = (createOrderRoute items sp tp).itemsPrice
          + (createOrderRoute items sp tp).shippingPrice
          + (createOrderRoute items sp tp).taxPrice ∧
      (createOrderRoute items sp tp).itemsPrice
        = computeItemsPrice (createOrderRoute items sp tp).items) ∧
    (∀ (items : List OrderItem) (rid : String),
      (paymentInitiateRoute items rid).totalPrice
        = (paymentInitiateRoute items rid).itemsPrice
          + (paymentInitiateRoute items rid).shippingPrice
          + (paymentInitiateRoute items rid).taxPrice ∧
      (paymentInitiateRoute items rid).itemsPrice
        = computeItemsPrice (paymentInitiateRoute items rid).items) ∧
    (∀ (now : Nat) (ship : Except String ShipmentResult)
        (pd : Option PaymentData) (st : DbState),
      pricesFrozen st.order (handlePaymentSuccess now ship pd st).order) ∧
    (∀ (now : Nat) (pd : Option PaymentData) (st : DbState),
      pricesFrozen st.order (handlePaymentFailure now pd st).order) ∧
    (∀ (now : Nat) (pd : Option PaymentData) (st : DbState),
      pricesFrozen st.order (handlePaymentAuthorized now pd st).order) ∧
    (∀ (now : Nat) (ship : Except String ShipmentResult) (st : DbState),
      pricesFrozen st.order (processShipment now ship st).order) ∧
    (∀ (hmac : String → String → String) (secret : String) (now : Nat)
        (ship : Except String ShipmentResult) (req : WebhookReq)
        (st : DbState),
      pricesFrozen st.order
        (razorpayWebhook hmac secret now ship req st).2.order) ∧
    (∀ (now : Nat) (reason : Option String) (o : Order),
      pricesFrozen o (cancelOrderRoute now reason o).2) ∧
    (∀ (now : Nat) (a b c : String) (m : Option String)
        (ps : Option PaymentStatus) (o : Order),
      pricesFrozen o (payOrderRoute now a b c m ps o)) ∧
    (∀ (now : Nat) (s : OrderStatus) (o : Order),
      pricesFrozen o (adminUpdateStatus now s o)) ∧
    (∀ (now : Nat) (b : ShipBody) (o : Order),
      pricesFrozen o (adminShipRoute now b o)) ∧
    (∀ (now : Nat) (a b c : String) (o : Order),
      pricesFrozen o (confirmPaymentRoute now a b c o)) ∧
    (∀ (now : Nat) (reason : Option String) (pc : Bool) (o : Order),
      pricesFrozen o (cancelShipmentRoute now reason pc o)) := by
  refine ⟨?_, ?_, pricesFrozen_success, pricesFrozen_failure,
    pricesFrozen_authorized, pricesFrozen_processShipment,
    pricesFrozen_webhook, ?_, ?_, ?_, ?_, ?_, ?_⟩
  · intro items sp tp
    exact ⟨rfl, rfl⟩
  · intro items rid
    exact ⟨rfl, rfl⟩
  · intro now reason o
    unfold cancelOrderRoute pricesFrozen
    split <;> simp
  · intro now a b c m ps o
    exact ⟨rfl, rfl, rfl, rfl, rfl⟩
  · intro now s o
    exact ⟨rfl, rfl, rfl, rfl, rfl⟩
  · intro now b o
    exact ⟨rfl, rfl, rfl, rfl, rfl⟩
  · intro now a b c o
    unfold confirmPaymentRoute pricesFrozen
    split <;> simp
  · intro now reason pc o
    unfold cancelShipmentRoute pricesFrozen
    cases o.shipmentDetails.awbNumber <;> simp

/-!  Helper lemmas about the product store. -/

/-- Looking up in a cons of the store. -/
theorem lookupProd_cons (k : Nat) (v : Product) (ps : List (Nat × Product))
    (id : Nat) :
    lookupProd ((k, v) :: ps) id
      = if k = id then some v else lookupProd ps id := by
  by_cases h : k = id <;> simp [lookupProd, List.find?_cons, h]

/-- Replacing the product under `id` does not affect other keys. -/
theorem lookupProd_setProd_ne (ps : List (Nat × Product)) (id : Nat)
    (p : Product) (id' : Nat) (hne : id' ≠ id) :
    lookupProd (setProd ps id p) id' = lookupProd ps id' := by
  induction ps with
  | nil => rfl
  | cons kv rest ih =>
      obtain ⟨k, v⟩ := kv
      show lookupProd (if k = id then (k, p) :: rest
        else (k, v) :: setProd rest id p) id' = _
      by_cases hk : k = id
      · subst hk
        rw [if_pos rfl, lookupProd_cons, lookupProd_cons,
          if_neg (fun h => hne h.symm), if_neg (fun h => hne h.symm)]
      · rw [if_neg hk, lookupProd_cons, lookupProd_cons, ih]

/-- Replacing the product under a present key makes lookups at that key
return the replacement. -/
theorem lookupProd_setProd_self (ps : List (Nat × Product)) (id : Nat)
    (p p₀ : Product) (hp : lookupProd ps id = some p₀) :
    lookupProd (setProd ps id p) id = some p := by
  induction ps with
  | nil => cases hp
  | cons kv rest ih =>
      obtain ⟨k, v⟩ := kv
      show lookupProd (if k = id then (k, p) :: rest
        else (k, v) :: setProd rest id p) id = _
      by_cases hk : k = id
      · rw [if_pos hk, lookupProd_cons, if_pos hk]
      · rw [lookupProd_cons, if_neg hk] at hp
        rw [if_neg hk, lookupProd_cons, if_neg hk, ih hp]

/-- One stock-deduction iteration leaves other products untouched. -/
theorem stockUpdateStep_other (now : Nat) (ps : List (Nat × Product))
    (id : Nat) (q : Nat) (id' : Nat) (hne : id' ≠ id) :
    lookupProd (stockUpdateStep now ps id q) id' = lookupProd ps id' := by
  unfold stockUpdateStep
  cases h : lookupProd ps id with
  | none => rfl
  | some p =>
      cases h2 : tryDecrement now p q with
      | none => simp only [h2]
      | some p1 =>
          simp only [h2]
          exact lookupProd_setProd_ne ps id (flipOutOfStock now p1) id' hne

/-- One stock-deduction iteration with sufficient stock stores the
decremented (and possibly out-of-stock-flipped) product. -/
theorem stockUpdateStep_self (now : Nat) (ps : List (Nat × Product))
    (id : Nat) (q : Nat) (p : Product) (hp : lookupProd ps id = some p)
    (hq : (q : Int) ≤ p.stock) :
    lookupProd (stockUpdateStep now ps id q) id
      = some (flipOutOfStock now
          { p with stock := p.stock - q, totalSales := p.totalSales + q,
                   lastStockUpdate := some now }) := by
  have ht : tryDecrement now p q
      = some { p with stock := p.stock - q, totalSales := p.totalSales + q,
                      lastStockUpdate := some now } := by
    unfold tryDecrement
    rw [if_pos hq]
  unfold stockUpdateStep
  rw [hp]
  simp only [ht]
  exact lookupProd_setProd_self ps id _ p hp

/-- The stock-deduction loop leaves products of foreign ids untouched. -/
theorem deductStock_preserves (now : Nat) :
    ∀ (items : List OrderItem) (ps : List (Nat × Product)) (id : Nat),
      (∀ it ∈ items, it.product ≠ id) →
      lookupProd (deductStock now items ps) id = lookupProd ps id := by
  intro items
  induction items with
  | nil => intro ps id _; rfl
  | cons a rest ih =>
      intro ps id h
      show lookupProd
        (deductStock now rest (stockUpdateStep now ps a.product a.quantity)) id
        = _
      rw [ih _ id (fun it hit => h it (List.mem_cons_of_mem a hit)),
        stockUpdateStep_other now ps a.product a.quantity id
          (Ne.symm (h a (List.mem_cons_self a rest)))]

/-- When the items carry pairwise distinct product ids and every present
product has sufficient stock, the deduction loop decrements each item's
product by exactly that item's quantity. -/
theorem deductStock_spec (now : Nat) :
    ∀ (items : List OrderItem) (ps : List (Nat × Product)),
      (items.map OrderItem.product).Nodup →
      (∀ it ∈ items, ∀ p, lookupProd ps it.product = some p →
        (it.quantity : Int) ≤ p.stock) →
      ∀ it ∈ items, ∀ p, lookupProd ps it.product = some p →
        (lookupProd (deductStock now items ps) it.product).map Product.stock
          = some (p.stock - it.quantity) := by
  intro items
  induction items with
  | nil => intro ps _ _ it hit; cases hit
  | cons a rest ih =>
      intro ps hnd hsuff it hit p hp
      rw [List.map_cons, List.nodup_cons] at hnd
      obtain ⟨hna, hndr⟩ := hnd
      have hpres : ∀ it2 ∈ rest, it2.product ≠ a.product :=
        fun it2 hit2 heq => hna (List.mem_map.mpr ⟨it2, hit2, heq⟩)
      rcases List.mem_cons.mp hit with heq | hmem
      · subst heq
        have hq := hsuff it (List.mem_cons_self it rest) p hp
        have h4 := stockUpdateStep_self now ps it.product it.quantity p hp hq
        show (lookupProd
            (deductStock now rest (stockUpdateStep now ps it.product
              it.quantity)) it.product).map Product.stock = _
        rw [deductStock_preserves now rest _ it.product hpres, h4]
        simp [flipOutOfStock_stock]
      · have hne : it.product ≠ a.product :=
          fun heq => hna (List.mem_map.mpr ⟨it, hmem, heq⟩)
        have hps' := stockUpdateStep_other now ps a.product a.quantity
          it.product hne
        have hsuff' : ∀ it2 ∈ rest, ∀ p2,
            lookupProd (stockUpdateStep now ps a.product a.quantity)
              it2.product = some p2 → (it2.quantity : Int) ≤ p2.stock := by
          intro it2 hit2 p2 hp2
          rw [stockUpdateStep_other now ps a.product a.quantity it2.product
            (hpres it2 hit2)] at hp2
          exact hsuff it2 (List.mem_cons_of_mem a hit2) p2 hp2
        show (lookupProd
            (deductStock now rest (stockUpdateStep now ps a.product
              a.quantity)) it.product).map Product.stock = _
        exact ih (stockUpdateStep now ps a.product a.quantity) hndr hsuff'
          it hmem p (by rw [hps']; exact hp)

/-- C7: a payment-captured event for a matched order records the capture —
status `paid` with `paidAt` set — decrements each item's product stock by
its quantity (given distinct product ids and sufficient stock), advances
the status to `processing`, and, when the shipment creation succeeds,
finishes at `shipped` with `shippedAt` set and the AWB number populated;
the appended history entries "paid", "processing", "shipped" document the
order of the three transitions. -/
theorem capture_happy_path (now : Nat) (pd : PaymentData)
    (r : ShipmentResult) (st : DbState)
    (hm : st.order.razorpayDetails.razorpayOrderId = some pd.order_id)
    (hnd : (st.order.items.map OrderItem.product).Nodup)
    (hsuff : ∀ it ∈ st.order.items, ∀ p,
      lookupProd st.products it.product = some p →
      (it.quantity : Int) ≤ p.stock) :
    (handlePaymentSuccess now (.ok r) (some pd) st).order.status = .shipped ∧
    (handlePaymentSuccess now (.ok r) (some pd) st).order.paidAt = some now ∧
    (handlePaymentSuccess now (.ok r) (some pd) st).order.shippedAt
      = some now ∧
    (handlePaymentSuccess now (.ok r) (some pd) st).order.shipmentDetails.awbNumber
      = some r.awbNumber ∧
    (handlePaymentSuccess now (.ok r) (some pd) st).order.statusHistory
      = st.order.statusHistory ++
        [{ status := "paid", timestamp := now, updatedBy := "razorpay_webhook",
           notes := "Payment captured: ₹" ++ toString (pd.amount / 100) ++
             " via " ++ pd.method },
         { status := "processing", timestamp := now, updatedBy := "system",
           notes := "Order processing for shipment creation" },
         { status := "shipped", timestamp := now,
           updatedBy := "shipyaari_integration",
           notes := "Shipment created - AWB: " ++ r.awbNumber ++
             ", Courier: " ++ r.courierPartner }] ∧
    (∀ it ∈ st.order.items, ∀ p,
      lookupProd st.products it.product = some p →
      (lookupProd (handlePaymentSuccess now (.ok r) (some pd) st).products
        it.product).map Product.stock = some (p.stock - it.quantity)) := by
  rw [handlePaymentSuccess_matched now (.ok r) pd st hm]
  refine ⟨rfl, rfl, rfl, rfl, ?_, ?_⟩
  · show (((st.order.statusHistory ++ [_]) ++ [_]) ++ [_] :
        List HistoryEntry) = _
    simp
  · intro it hit p hp
    show (lookupProd (deductStock now st.order.items st.products)
        it.product).map Product.stock = _
    exact deductStock_spec now st.order.items st.products hnd hsuff it hit p hp

/-- Witness for C7: the concrete capture run over the one-item store ends
shipped with stock 2 decremented to 1. -/
theorem capture_happy_path_witness :
    (handlePaymentSuccess 5
      (.ok { shipyaariOrderId := "sy_1", awbNumber := "AWB1",
             courierPartner := "BlueDart", trackingUrl := "http://track",
             estimatedDeliveryDate := 9 })
      (some pdEx) stEx).order.status = .shipped :=
  (capture_happy_path 5 pdEx
    { shipyaariOrderId := "sy_1", awbNumber := "AWB1",
      courierPartner := "BlueDart", trackingUrl := "http://track",
      estimatedDeliveryDate := 9 } stEx (by decide) (by decide)
    (by
      intro it hit p hp
      have hi : it = itemEx := by
        simpa [stEx, orderEx] using hit
      subst hi
      have hpv : p = { stock := 2 } := by
        have := hp
        simp [stEx, itemEx, lookupProd, List.find?] at this
        exact this.symm
      subst hpv
      decide)).1

end HOE
